import Mathlib

/-!
Verification of the resilient invocation orchestrator of `map-me-search`.

The development shallowly embeds the Python modules
`src/agent/utils/places_agent_core.py`, `src/agent/utils/scoring_tools.py`,
`src/main.py` and `src/agent/agent.py`.  Remote services (the model runner,
the session store, the memory store) are modelled as explicit oracles passed
to the embedded functions; exceptions are modelled with `Except` or with an
explicit error outcome; Python floats are modelled as rationals.
-/

namespace MapMeSearch

/-- Executable check that `needle` occurs as a contiguous run inside `hay`
(the Python `needle in hay` test on strings, specialised to char lists). -/
def listHasRun (needle : List Char) : List Char → Bool
  | [] => needle.isEmpty
  | c :: rest => needle.isPrefixOf (c :: rest) || listHasRun needle rest

/-- Python's `needle in hay` substring test on strings. -/
def strContains (hay needle : String) : Bool :=
  listHasRun needle.data hay.data

/-- Python's `str.lower()`, modelled as character-wise ASCII lowering. -/
def pyLower (s : String) : String :=
  ⟨s.data.map Char.toLower⟩

/-- Model of a raised Python exception as seen by the classifiers of
`places_agent_core.py`: whether it is a `genai_errors.ServerError` instance
(with `genai_errors` importable), the value of its `status_code` attribute
when present, and its `str(exc)` rendering. -/
structure PyError where
  isServerError : Bool
  statusCode : Option Int
  msg : String
deriving DecidableEq, Repr

/-- Embedding of `_is_transient_model_error` (places_agent_core.py 42-58):
a `ServerError` carrying status code 503, else message checks on the
lower-cased `str(exc)`. -/
def is_transient_model_error (e : PyError) : Bool :=
  if e.isServerError && (e.statusCode == some 503) then
    true
  else
    let msg := pyLower e.msg
    if strContains msg "503" && (strContains msg "overloaded" || strContains msg "unavailable") then
      true
    else if strContains msg "the model is overloaded" then
      true
    else if strContains msg "429" && (strContains msg "resource_exhausted" || strContains msg "quota") then
      true
    else
      false

/-- Embedding of `_is_quota_exhausted_error` (places_agent_core.py 61-65). -/
def is_quota_exhausted_error (e : PyError) : Bool :=
  let msg := pyLower e.msg
  strContains msg "429" && (strContains msg "resource_exhausted" || strContains msg "quota")

/-- The three-way failure taxonomy of spec §4.1. -/
inductive ErrorClass where
  | QuotaExhausted
  | TransientRetryable
  | Fatal
deriving DecidableEq, Repr

/-- The classification realised by the retry loop of
`_run_runner_collect_final_text` (places_agent_core.py 105-110): the quota
check runs first, then the transient check, everything else is fatal. -/
def classify (e : PyError) : ErrorClass :=
  if is_quota_exhausted_error e then .QuotaExhausted
  else if is_transient_model_error e then .TransientRetryable
  else .Fatal

/-- Modelled from the spec (§4.1): the spec's quota marker — the message
indicates HTTP 429 combined with a resource-exhaustion/quota marker. -/
def specQuotaMarked (e : PyError) : Prop :=
  strContains (pyLower e.msg) "429" = true ∧
    (strContains (pyLower e.msg) "resource_exhausted" = true ∨
      strContains (pyLower e.msg) "quota" = true)

/-- Modelled from the spec (§4.1): the spec's three TransientRetryable
conditions — HTTP 503 with an overloaded/unavailable marker, the generic
"model is overloaded" marker, or a known transient-server-error type whose
carried status code equals 503. -/
def specTransientCond (e : PyError) : Prop :=
  (strContains (pyLower e.msg) "503" = true ∧
      (strContains (pyLower e.msg) "overloaded" = true ∨
        strContains (pyLower e.msg) "unavailable" = true)) ∨
    strContains (pyLower e.msg) "the model is overloaded" = true ∨
    (e.isServerError = true ∧ e.statusCode = some 503)

instance (e : PyError) : Decidable (specQuotaMarked e) := by
  unfold specQuotaMarked; infer_instance

instance (e : PyError) : Decidable (specTransientCond e) := by
  unfold specTransientCond; infer_instance

/-- A part of an event's content; `text` is `none` when the Python attribute
is `None`. -/
structure EventPart where
  text : Option String
deriving DecidableEq, Repr

/-- An event's content: its (possibly empty) list of parts.  The Python
truthiness test `event.content.parts` is the non-emptiness of this list. -/
structure EventContent where
  parts : List EventPart
deriving DecidableEq, Repr

/-- A pipeline event as observed by the runner loop: whether
`is_final_response()` holds and the `content` attribute (`none` = `None`). -/
structure Event where
  isFinalResponseFlag : Bool
  content : Option EventContent
deriving DecidableEq, Repr

/-- The text a single event contributes to `final_text`, if any: the event
must be a final response, have truthy content and parts, and its first
part's text must be non-`None`, non-empty and different from the literal
string `"None"` (places_agent_core.py 100-103, main.py 532-535,
agent/agent.py 346-349). -/
def eventFinalText? (ev : Event) : Option String :=
  if ev.isFinalResponseFlag then
    match ev.content with
    | none => none
    | some c =>
      match c.parts with
      | [] => none
      | p :: _ =>
        match p.text with
        | none => none
        | some t => if t ≠ "" ∧ t ≠ "None" then some t else none
  else none

/-- One iteration of the `async for` body: keep the previous accumulator
unless the event qualifies, in which case overwrite it. -/
def finalTextStep (acc : String) (ev : Event) : String :=
  match eventFinalText? ev with
  | some t => t
  | none => acc

/-- Embedding of the event-collection loop shared by
`_run_runner_collect_final_text` (places_agent_core.py 94-104) and both
`search_places` entry points: fold the stream, starting from `""`. -/
def collectFinalText (events : List Event) : String :=
  events.foldl finalTextStep ""

/-- Modelled from the spec (§3 PipelineRunResult): the text of the last
qualifying event of the stream, or `""` when no event qualifies. -/
def finalTextSpec (events : List Event) : String :=
  match (events.filterMap eventFinalText?).getLast? with
  | some t => t
  | none => ""

/-- Result of one invocation of `runner.run_async` inside the retry loop:
either the stream completes with the given events, or iteration raises. -/
inductive AttemptResult where
  | success (events : List Event)
  | failure (e : PyError)
deriving DecidableEq, Repr

/-- Outcome of the whole retry runner: the returned text or the raised
exception. -/
inductive RunOutcome where
  | ok (text : String)
  | err (e : PyError)
deriving DecidableEq, Repr

/-- Observable trace of one call to the retry runner: its outcome, how many
attempts (invocations of `runner.run_async`) were made, and the successive
sleep durations, in order. -/
structure RetryTrace where
  outcome : RunOutcome
  attempts : Nat
  sleeps : List ℚ
deriving DecidableEq, Repr

/-- The retry loop of `_run_runner_collect_final_text`
(places_agent_core.py 87-119), with the per-attempt behaviour of
`runner.run_async` supplied by the oracle `call` (0-indexed by attempt).
`fuel = maxAttempts - attemptsMade` counts the remaining iterations of
`while attempt < max_attempts`; `attemptsMade` is the number of attempts
already performed and `delay` the current backoff delay.  Each arm mirrors
the corresponding Python statement: success returns the collected text; a
quota-classified failure re-raises; a non-transient or final-attempt
failure re-raises; otherwise the loop sleeps `delay`, multiplies the delay
by `backoff` and continues. -/
def runRetryAux (call : Nat → AttemptResult) (maxAttempts : Nat) (backoff : ℚ) :
    Option PyError → Nat → Nat → ℚ → RetryTrace
  | lastExc, 0, attemptsMade, _ =>
    { outcome := match lastExc with
        | some e => .err e
        | none => .ok ""
      attempts := attemptsMade
      sleeps := [] }
  | _, fuel + 1, attemptsMade, delay =>
    match call attemptsMade with
    | .success events =>
      { outcome := .ok (collectFinalText events), attempts := attemptsMade + 1, sleeps := [] }
    | .failure e =>
      if is_quota_exhausted_error e then
        { outcome := .err e, attempts := attemptsMade + 1, sleeps := [] }
      else if !is_transient_model_error e || decide (maxAttempts ≤ attemptsMade + 1) then
        { outcome := .err e, attempts := attemptsMade + 1, sleeps := [] }
      else
        let rest := runRetryAux call maxAttempts backoff (some e) fuel (attemptsMade + 1)
          (delay * backoff)
        { outcome := rest.outcome, attempts := rest.attempts, sleeps := delay :: rest.sleeps }

/-- Embedding of `_run_runner_collect_final_text` (places_agent_core.py
77-119): start with `attempt = 0`, `delay = initial_delay_s` and no
recorded exception. -/
def run_runner_collect_final_text (call : Nat → AttemptResult) (maxAttempts : Nat)
    (initialDelay backoff : ℚ) : RetryTrace :=
  runRetryAux call maxAttempts backoff none maxAttempts 0 initialDelay

/-- A concrete transient-classified, non-quota failure: HTTP 503 with the
"unavailable" marker. -/
def overloadedErr : PyError :=
  ⟨false, none, "503 service unavailable"⟩

/-- A concrete failure whose message carries both the quota markers and the
transient markers. -/
def quotaOverlapErr : PyError :=
  ⟨false, none, "429 quota exceeded; 503 unavailable"⟩

/-- Python truthiness of the optional `topic` argument (`if topic:`): absent
(`None`) or empty is falsy. -/
def pyTruthy (topic : Option String) : Bool :=
  match topic with
  | none => false
  | some t => t != ""

/-- Embedding of `generate_session_id` (places_agent_core.py 306-309; the
same derivation is inlined at main.py 490-493 and agent/agent.py 304-307).
The fresh `uuid.uuid4()` drawn in the no-topic branch is supplied as
`freshUuid`. -/
def generate_session_id (user_id : String) (topic : Option String) (freshUuid : String) :
    String :=
  if pyTruthy topic then user_id ++ "::" ++ topic.getD ""
  else user_id ++ "::temp::" ++ freshUuid

/-- The exception classes distinguished by `create_or_retrieve_session`:
the Python clause catching `(ValueError, RuntimeError, ConnectionError)`
matches the first three; `other` stands for any exception outside that
tuple. -/
inductive ExcKind where
  | valueError
  | runtimeError
  | connectionError
  | other
deriving DecidableEq, Repr

/-- A Python exception at the session layer: its class and its `str`. -/
structure PyExc where
  kind : ExcKind
  msg : String
deriving DecidableEq, Repr

/-- Whether the exception is caught by the
`(ValueError, RuntimeError, ConnectionError)` clause. -/
def recoverable (k : ExcKind) : Bool :=
  match k with
  | .other => false
  | _ => true

/-- Embedding of `create_or_retrieve_session` (places_agent_core.py
312-335).  The store's `create_session` and `get_session` coroutines are
oracles from `(app_name, user_id, session_id)` to a session or a raised
exception; the second component of the result is `created_new`. -/
def create_or_retrieve_session {σ : Type}
    (createFn getFn : String → String → String → Except PyExc σ)
    (app_name user_id session_id : String) : Except PyExc (σ × Bool) :=
  match createFn app_name user_id session_id with
  | .ok session => .ok (session, true)
  | .error e =>
    if recoverable e.kind then
      match getFn app_name user_id session_id with
      | .ok session => .ok (session, false)
      | .error retrieve_error =>
        if recoverable retrieve_error.kind then
          .error ⟨.runtimeError, "Failed to create or retrieve session: " ++ retrieve_error.msg⟩
        else
          .error retrieve_error
    else
      .error e

/-- The session service variants `initialize_services` can return. -/
inductive SessionStore where
  | database
  | inMemory
deriving DecidableEq, Repr

/-- The memory service; the source always builds `InMemoryMemoryService`. -/
inductive MemoryStore where
  | inMemory
deriving DecidableEq, Repr

/-- Embedding of `initialize_services` (places_agent_core.py 267-286; the
variant at main.py 355-397 differs only in logging and in not returning the
last two components).  The outcome of constructing
`DatabaseSessionService(db_url=...)` is the oracle `dbConstruct`; the
source's `except Exception` catches any construction failure.  The result
is `(session_service, memory_service, using_database, db_error)`. -/
def initialize_services (topic : Option String) (dbConstruct : Except PyExc Unit) :
    SessionStore × MemoryStore × Bool × Option PyExc :=
  if pyTruthy topic then
    match dbConstruct with
    | .ok _ => (.database, .inMemory, true, none)
    | .error e => (.inMemory, .inMemory, false, some e)
  else
    (.inMemory, .inMemory, false, none)

/-- Behaviour of one full `runner.run_async` iteration inside
`search_places`: either the stream completes with these events or iterating
it raises. -/
inductive StreamResult where
  | events (evs : List Event)
  | raises (e : PyError)
deriving DecidableEq, Repr

/-- The `async for` section of `search_places` (main.py 526-535,
agent/agent.py 340-349): the stream either completes — yielding the
collected final text — or raises; no handler surrounds it, so the raised
exception propagates. -/
def runStream (stream : StreamResult) : Except PyError String :=
  match stream with
  | .events evs => .ok (collectFinalText evs)
  | .raises e => .error e

/-- Embedding of the caller-facing `search_places` (main.py 429-551,
agent/agent.py 279-359), with its external effects as oracles: `createRes`
and `getRes` are the session store's answers (the bare `except:` around
`create_session` at main.py 498-511 / agent.py 317-329 catches every
exception and falls back to `get_session`, whose failure propagates), and
`stream` is the behaviour of the `runner.run_async` iteration.  The memory
save (main.py 538-543, agent/agent.py 351-357) swallows its own failure and
does not affect the returned value. -/
def search_places {σ : Type} (createRes getRes : Except PyError σ)
    (stream : StreamResult) : Except PyError String :=
  match createRes with
  | .ok _ => runStream stream
  | .error _ =>
    match getRes with
    | .ok _ => runStream stream
    | .error ge => .error ge

/-- The dictionary returned by the scoring tools: the success shape carries
`status`, `boost` and `reason`; the documented error shape would set
`error_message`. -/
structure ToolResult where
  status : String
  boost : Nat
  reason : String
  error_message : Option String
deriving DecidableEq, Repr

/-- Body of `get_place_category_boost` (scoring_tools.py 57-76) after the
two lower-casing assignments. -/
def boost_core (category preferences : String) : ToolResult :=
  if strContains preferences category || strContains category preferences then
    ⟨"success", 3, "Direct match", none⟩
  else
    let food_related : List String := ["restaurant", "cafe", "coffee", "bar", "food"]
    let culture_related : List String := ["museum", "gallery", "theater", "art"]
    let outdoor_related : List String := ["park", "garden", "hiking", "beach"]
    if food_related.contains category
        && food_related.any (fun term => strContains preferences term) then
      ⟨"success", 2, "Food-related match", none⟩
    else if culture_related.contains category
        && culture_related.any (fun term => strContains preferences term) then
      ⟨"success", 2, "Culture-related match", none⟩
    else if outdoor_related.contains category
        && outdoor_related.any (fun term => strContains preferences term) then
      ⟨"success", 2, "Outdoor-related match", none⟩
    else
      ⟨"success", 0, "No special match", none⟩

/-- Embedding of `get_place_category_boost` (scoring_tools.py 45-76; the
same code is duplicated at main.py 134-165 and agent/agent.py 67-94): both
inputs are lower-cased, then matched. -/
def get_place_category_boost (category preferences : String) : ToolResult :=
  boost_core (pyLower category) (pyLower preferences)

lemma is_quota_exhausted_error_iff (e : PyError) :
    is_quota_exhausted_error e = true ↔ specQuotaMarked e := by
  unfold is_quota_exhausted_error specQuotaMarked
  simp [Bool.and_eq_true, Bool.or_eq_true]

lemma is_transient_model_error_iff (e : PyError) :
    is_transient_model_error e = true ↔ (specTransientCond e ∨ specQuotaMarked e) := by
  unfold is_transient_model_error specTransientCond specQuotaMarked
  by_cases hsrv : (e.isServerError && (e.statusCode == some 503)) = true
  · have hs : e.isServerError = true ∧ e.statusCode = some 503 := by
      simpa [Bool.and_eq_true] using hsrv
    simp [hsrv, hs]
  · rw [if_neg hsrv]
    have hsrv' : ¬(e.isServerError = true ∧ e.statusCode = some 503) := by
      simpa [Bool.and_eq_true] using hsrv
    cases h503 : strContains (pyLower e.msg) "503" <;>
      cases hov : strContains (pyLower e.msg) "overloaded" <;>
        cases hun : strContains (pyLower e.msg) "unavailable" <;>
          cases hmo : strContains (pyLower e.msg) "the model is overloaded" <;>
            cases h429 : strContains (pyLower e.msg) "429" <;>
              cases hre : strContains (pyLower e.msg) "resource_exhausted" <;>
                cases hq : strContains (pyLower e.msg) "quota" <;>
                  simp [h503, hov, hun, hmo, h429, hre, hq, hsrv']

lemma foldl_finalTextStep (events : List Event) (acc : String) :
    events.foldl finalTextStep acc =
      match (events.filterMap eventFinalText?).getLast? with
      | some t => t
      | none => acc := by
  induction events generalizing acc with
  | nil => simp
  | cons ev rest ih =>
    rw [List.foldl_cons, ih, List.filterMap_cons]
    cases hev : eventFinalText? ev with
    | none => simp [finalTextStep, hev]
    | some t =>
      simp only [finalTextStep, hev]
      cases hrest : (rest.filterMap eventFinalText?).getLast? with
      | none =>
        have : rest.filterMap eventFinalText? = [] := by
          cases h : rest.filterMap eventFinalText? with
          | nil => rfl
          | cons a l => rw [h] at hrest; simp [List.getLast?_concat] at hrest
        simp [this]
      | some u =>
        have hne : rest.filterMap eventFinalText? ≠ [] := by
          intro h; rw [h] at hrest; simp at hrest
        obtain ⟨b, l, hbl⟩ := List.exists_cons_of_ne_nil hne
        rw [hbl] at hrest
        rw [hbl, List.getLast?_cons_cons, hrest]

lemma runRetryAux_all_transient (call : Nat → AttemptResult) (maxA : Nat) (backoff : ℚ)
    (err : Nat → PyError)
    (hcall : ∀ i, i < maxA → call i = .failure (err i) ∧
      is_quota_exhausted_error (err i) = false ∧ is_transient_model_error (err i) = true) :
    ∀ fuel attemptsMade (delay : ℚ) lastExc, 1 ≤ fuel → attemptsMade + fuel = maxA →
      runRetryAux call maxA backoff lastExc fuel attemptsMade delay =
        { outcome := .err (err (maxA - 1)), attempts := maxA,
          sleeps := (List.range (fuel - 1)).map fun k => delay * backoff ^ k } := by
  intro fuel
  induction fuel with
  | zero => intro _ _ _ h _; omega
  | succ f ih =>
    intro attemptsMade delay lastExc _ hsum
    have hlt : attemptsMade < maxA := by omega
    obtain ⟨hc, hq, ht⟩ := hcall attemptsMade hlt
    simp only [runRetryAux, hc]
    rw [if_neg (by simp [hq])]
    cases f with
    | zero =>
      have hfin : maxA ≤ attemptsMade + 1 := by omega
      rw [if_pos (by simp [ht, hfin])]
      have h2 : attemptsMade = maxA - 1 := by omega
      subst h2
      have h3 : maxA - 1 + 1 = maxA := by omega
      simp [h3]
    | succ f' =>
      have hge : ¬ maxA ≤ attemptsMade + 1 := by omega
      rw [if_neg (by simp [ht, hge])]
      rw [ih (attemptsMade + 1) (delay * backoff) (some (err attemptsMade)) (by omega) (by omega)]
      simp only [Nat.add_sub_cancel]
      congr 1
      rw [List.range_succ_eq_map, List.map_cons, List.map_map]
      congr 1
      · simp
      · apply List.map_congr_left
        intro a _
        simp only [Function.comp_apply, pow_succ]
        ring

/-- C1: when every attempt fails with a failure that is transient-classified
and not quota-classified, the retry runner with `maxAttempts = N ≥ 1`,
initial delay `d` and backoff factor `f` performs exactly `N` attempts,
sleeps exactly `N - 1` times with delays `d, d*f, ..., d*f^(N-2)`, and
propagates the failure of the last attempt. -/
theorem retry_all_transient_trace (call : Nat → AttemptResult) (N : Nat) (hN : 1 ≤ N)
    (d f : ℚ) (err : Nat → PyError)
    (hcall : ∀ i, i < N → call i = .failure (err i) ∧
      is_quota_exhausted_error (err i) = false ∧ is_transient_model_error (err i) = true) :
    run_runner_collect_final_text call N d f =
      { outcome := .err (err (N - 1)), attempts := N,
        sleeps := (List.range (N - 1)).map fun k => d * f ^ k } := by
  unfold run_runner_collect_final_text
  have h := runRetryAux_all_transient call N f err hcall N 0 d none hN (by omega)
  simpa using h

lemma overloadedErr_class :
    is_quota_exhausted_error overloadedErr = false ∧
      is_transient_model_error overloadedErr = true := by
  decide

theorem retry_all_transient_trace_witness :
    run_runner_collect_final_text (fun _ => .failure overloadedErr) 3 1 2 =
      { outcome := .err overloadedErr, attempts := 3, sleeps := [1, 2] } := by
  have h := retry_all_transient_trace (fun _ => .failure overloadedErr) 3 (by norm_num) 1 2
    (fun _ => overloadedErr) (fun i _ => ⟨rfl, overloadedErr_class.1, overloadedErr_class.2⟩)
  rw [h]
  norm_num [List.range_succ]

/-- C2: at any attempt of the retry loop, a failure that is quota-classified
(even if its message also matches the transient markers, since the quota
check runs first), or a failure that is neither quota- nor
transient-classified, is re-raised unchanged at once: the trace from that
attempt on records exactly this one attempt and no sleep. -/
theorem retry_quota_or_fatal_aborts (call : Nat → AttemptResult) (maxA : Nat) (backoff : ℚ)
    (lastExc : Option PyError) (fuel attemptsMade : Nat) (delay : ℚ) (e : PyError)
    (hfuel : 1 ≤ fuel) (hc : call attemptsMade = .failure e)
    (h : is_quota_exhausted_error e = true ∨
      (is_quota_exhausted_error e = false ∧ is_transient_model_error e = false)) :
    runRetryAux call maxA backoff lastExc fuel attemptsMade delay =
      { outcome := .err e, attempts := attemptsMade + 1, sleeps := [] } := by
  obtain ⟨f, rfl⟩ : ∃ f, fuel = f + 1 := ⟨fuel - 1, by omega⟩
  simp only [runRetryAux, hc]
  rcases h with hq | ⟨hq, ht⟩
  · rw [if_pos hq]
  · rw [if_neg (by simp [hq]), if_pos (by simp [ht])]

lemma quotaOverlapErr_class :
    is_quota_exhausted_error quotaOverlapErr = true ∧
      is_transient_model_error quotaOverlapErr = true := by
  decide

theorem retry_quota_or_fatal_aborts_witness :
    runRetryAux (fun _ => .failure quotaOverlapErr) 5 2 none 5 0 1 =
      { outcome := .err quotaOverlapErr, attempts := 1, sleeps := [] } ∧
      is_transient_model_error quotaOverlapErr = true :=
  ⟨retry_quota_or_fatal_aborts _ 5 2 none 5 0 1 quotaOverlapErr (by norm_num) rfl
      (Or.inl quotaOverlapErr_class.1),
    quotaOverlapErr_class.2⟩

/-- C3 counterexample: a failure whose message carries both the 503/unavailable
transient markers and the 429/quota markers satisfies the spec's
TransientRetryable condition but is classified QuotaExhausted, because the
quota check runs first. -/
theorem classify_transient_counterexample :
    specTransientCond quotaOverlapErr ∧ classify quotaOverlapErr ≠ .TransientRetryable := by
  exact ⟨by decide, by decide⟩

/-- C3 (amended): the classifier marks a failure TransientRetryable iff it
is not quota-marked (HTTP 429 with a resource-exhaustion/quota marker) and
satisfies one of the three transient conditions: HTTP 503 with an
overloaded/unavailable marker, the generic "model is overloaded" marker, or
a transient-server-error type carrying status code 503. -/
theorem classify_transient_iff (e : PyError) :
    classify e = .TransientRetryable ↔ (¬ specQuotaMarked e ∧ specTransientCond e) := by
  unfold classify
  by_cases hq : is_quota_exhausted_error e = true
  · rw [if_pos hq]
    simp [(is_quota_exhausted_error_iff e).mp hq]
  · rw [if_neg hq]
    have hq' : ¬ specQuotaMarked e := fun h => hq ((is_quota_exhausted_error_iff e).mpr h)
    by_cases ht : is_transient_model_error e = true
    · rw [if_pos ht]
      rcases (is_transient_model_error_iff e).mp ht with h | h
      · simp [hq', h]
      · exact absurd h hq'
    · rw [if_neg ht]
      have hnt : ¬ (specTransientCond e ∨ specQuotaMarked e) :=
        fun h => ht ((is_transient_model_error_iff e).mpr h)
      push_neg at hnt
      simp [hnt.1]

/-- C8: for every finite event stream, the collected final text is the text
of the last final-response event that carries non-empty text different from
the literal "None", and the empty string when no event qualifies; a
completed stream yields this as a normal (non-error) result. -/
theorem collectFinalText_eq_spec (events : List Event) :
    collectFinalText events = finalTextSpec events := by
  unfold collectFinalText finalTextSpec
  exact foldl_finalTextStep events ""

/-- C5: with a non-empty topic the session identifier is a deterministic
function of (requesterId, topic) alone — independent of the random
component — while without a topic two derivations whose random components
differ yield two distinct identifiers. -/
theorem session_id_topic_modes (u t uuid₁ uuid₂ : String) (ht : t ≠ "") :
    generate_session_id u (some t) uuid₁ = generate_session_id u (some t) uuid₂ ∧
      (uuid₁ ≠ uuid₂ →
        generate_session_id u none uuid₁ ≠ generate_session_id u none uuid₂) := by
  constructor
  · have htt : pyTruthy (some t) = true := by simp [pyTruthy, ht]
    simp [generate_session_id, htt]
  · intro hne heq
    apply hne
    have h := congrArg String.data heq
    simp only [generate_session_id, pyTruthy, Bool.false_eq_true, if_false,
      String.data_append] at h
    exact String.ext (List.append_cancel_left h)

theorem session_id_topic_modes_witness :
    generate_session_id "u1" (some "trip") "r1" = generate_session_id "u1" (some "trip") "r2" ∧
      generate_session_id "u1" none "r1" ≠ generate_session_id "u1" none "r2" :=
  ⟨(session_id_topic_modes "u1" "trip" "r1" "r2" (by decide)).1,
    (session_id_topic_modes "u1" "trip" "r1" "r2" (by decide)).2 (by decide)⟩

/-- C9 counterexample: the derivation is not injective on
(requesterId, topic): the pairs ("a::b", "c") and ("a", "b::c") are
distinct yet both derive the session identifier "a::b::c". -/
theorem session_id_collision :
    generate_session_id "a::b" (some "c") "x" = generate_session_id "a" (some "b::c") "y" ∧
      ("a::b", "c") ≠ (("a", "b::c") : String × String) := by
  exact ⟨by decide, by decide⟩

lemma sepFree_append_inj {l₁ l₂ r₁ r₂ : List Char}
    (h₁ : ∀ c ∈ l₁, c ≠ ':') (h₂ : ∀ c ∈ l₂, c ≠ ':')
    (h : l₁ ++ ':' :: r₁ = l₂ ++ ':' :: r₂) : l₁ = l₂ ∧ r₁ = r₂ := by
  induction l₁ generalizing l₂ with
  | nil =>
    cases l₂ with
    | nil => simpa using h
    | cons b m =>
      simp only [List.nil_append, List.cons_append, List.cons.injEq] at h
      exact absurd h.1.symm (h₂ b (by simp))
  | cons a l ih =>
    cases l₂ with
    | nil =>
      simp only [List.nil_append, List.cons_append, List.cons.injEq] at h
      exact absurd h.1 (h₁ a (by simp))
    | cons b m =>
      simp only [List.cons_append, List.cons.injEq] at h
      obtain ⟨hab, htail⟩ := h
      obtain ⟨hl, hr⟩ := ih (fun c hc => h₁ c (List.mem_cons_of_mem a hc))
        (fun c hc => h₂ c (List.mem_cons_of_mem b hc)) htail
      exact ⟨by rw [hab, hl], hr⟩

/-- C9 (amended): the derivation is injective on (requesterId, topic) pairs
whose requester identifiers contain no ':' character; with embedded
separators, distinct pairs can collide. -/
theorem session_id_injective_sep_free (u₁ u₂ t₁ t₂ x₁ x₂ : String)
    (hu₁ : ∀ c ∈ u₁.data, c ≠ ':') (hu₂ : ∀ c ∈ u₂.data, c ≠ ':')
    (ht₁ : t₁ ≠ "") (ht₂ : t₂ ≠ "") (hne : (u₁, t₁) ≠ (u₂, t₂)) :
    generate_session_id u₁ (some t₁) x₁ ≠ generate_session_id u₂ (some t₂) x₂ := by
  intro heq
  apply hne
  simp only [generate_session_id, pyTruthy, Option.getD_some] at heq
  rw [if_pos (by simp [ht₁]), if_pos (by simp [ht₂])] at heq
  have h := congrArg String.data heq
  rw [String.data_append, String.data_append, String.data_append, String.data_append] at h
  have hsep : ("::" : String).data = [':', ':'] := rfl
  rw [hsep] at h
  have h' : u₁.data ++ ':' :: ':' :: t₁.data = u₂.data ++ ':' :: ':' :: t₂.data := by
    simpa [List.append_assoc] using h
  obtain ⟨hu, ht⟩ := sepFree_append_inj hu₁ hu₂ h'
  have ht' : t₁.data = t₂.data := by
    simpa using ht
  rw [String.ext hu, String.ext ht']

theorem session_id_injective_sep_free_witness :
    generate_session_id "u1" (some "trip") "x" ≠ generate_session_id "u2" (some "trip") "y" :=
  session_id_injective_sep_free "u1" "u2" "trip" "trip" "x" "y"
    (by decide) (by decide) (by decide) (by decide) (by decide)

/-- C6: if `create_session` raises a recoverable (value/state/connection
class) error, `get_session` is attempted with the same arguments: on its
success the session is returned with `created_new = false`; if it raises a
recoverable error too, the wrapped failure whose message extends
"Failed to create or retrieve session" is raised; and every successful
resolution has `created_new = true` exactly when `create_session`
succeeded. -/
theorem create_or_retrieve_session_spec {σ : Type}
    (createFn getFn : String → String → String → Except PyExc σ) (app u sid : String) :
    (∀ e, createFn app u sid = .error e → recoverable e.kind = true →
      (∀ s, getFn app u sid = .ok s →
        create_or_retrieve_session createFn getFn app u sid = .ok (s, false)) ∧
      (∀ e₂, getFn app u sid = .error e₂ → recoverable e₂.kind = true →
        ∃ rest, create_or_retrieve_session createFn getFn app u sid =
          .error ⟨.runtimeError, "Failed to create or retrieve session" ++ rest⟩)) ∧
    (∀ s b, create_or_retrieve_session createFn getFn app u sid = .ok (s, b) →
      (b = true ↔ createFn app u sid = .ok s)) := by
  constructor
  · intro e hce hrec
    constructor
    · intro s hgs
      unfold create_or_retrieve_session
      rw [hce]
      simp [hrec, hgs]
    · intro e₂ hge hrec₂
      have hmsg : "Failed to create or retrieve session: " ++ e₂.msg =
          "Failed to create or retrieve session" ++ (": " ++ e₂.msg) := by
        apply String.ext
        rw [String.data_append, String.data_append, String.data_append]
        rw [show ("Failed to create or retrieve session: " : String).data =
          ("Failed to create or retrieve session" : String).data ++ (": " : String).data
          from by decide]
        rw [List.append_assoc]
      refine ⟨": " ++ e₂.msg, ?_⟩
      unfold create_or_retrieve_session
      rw [hce]
      simp [hrec, hge, hrec₂, hmsg]
  · intro s b
    unfold create_or_retrieve_session
    cases hc : createFn app u sid with
    | ok s' =>
      intro hok
      simp only [Except.ok.injEq, Prod.mk.injEq] at hok
      constructor
      · intro _
        rw [hok.1]
      · intro _
        exact hok.2.symm
    | error e =>
      intro hok
      by_cases hrec : recoverable e.kind = true
      · simp only [hrec, if_true] at hok
        cases hg : getFn app u sid with
        | ok s'' =>
          rw [hg] at hok
          simp only [Except.ok.injEq, Prod.mk.injEq] at hok
          constructor
          · intro hb
            rw [← hok.2] at hb
            simp at hb
          · intro hcs
            simp at hcs
        | error e₂ =>
          rw [hg] at hok
          by_cases h2 : recoverable e₂.kind = true
          · simp only [h2, if_true] at hok
            simp at hok
          · simp only [h2, if_false] at hok
            simp at hok
      · simp only [hrec, if_false] at hok
        simp at hok

theorem create_or_retrieve_session_spec_witness :
    create_or_retrieve_session
        (fun _ _ _ => (.error ⟨.valueError, "session already exists"⟩ : Except PyExc String))
        (fun _ _ _ => .ok "S1") "PlacesSearchApp" "u1" "u1::trip" = .ok ("S1", false) :=
  ((create_or_retrieve_session_spec
      (fun _ _ _ => (.error ⟨.valueError, "session already exists"⟩ : Except PyExc String))
      (fun _ _ _ => .ok "S1") "PlacesSearchApp" "u1" "u1::trip").1
    ⟨.valueError, "session already exists"⟩ rfl rfl).1 "S1" rfl

/-- C7: with a topic supplied, a durable-store construction failure of any
exception class makes service initialization return the ephemeral in-memory
session store (recording the error for logging) instead of propagating the
exception, so the overall request goes on. -/
theorem initialize_services_degrades (topic : Option String) (e : PyExc)
    (htopic : pyTruthy topic = true) :
    initialize_services topic (.error e) = (.inMemory, .inMemory, false, some e) := by
  simp [initialize_services, htopic]

theorem initialize_services_degrades_witness :
    initialize_services (some "trip") (.error ⟨.other, "db unreachable"⟩) =
      (.inMemory, .inMemory, false, some ⟨.other, "db unreachable"⟩) :=
  initialize_services_degrades (some "trip") ⟨.other, "db unreachable"⟩ (by decide)

/-- C4 counterexample: when the model call fails with a quota-exhausted
condition, `search_places` raises that failure instead of returning a
degraded user-facing message. -/
theorem search_places_raises_on_quota :
    search_places (.ok ()) (.ok ()) (.raises ⟨false, none, "429 quota exceeded"⟩) =
        .error ⟨false, none, "429 quota exceeded"⟩ ∧
      is_quota_exhausted_error ⟨false, none, "429 quota exceeded"⟩ = true :=
  ⟨rfl, by decide⟩

/-- C4 (amended): once the session is resolved, every failure of the model
call — quota-exhausted, transient and fatal alike — propagates out of
`search_places` as a raised error, and a completed stream returns the
collected final text; the entry point produces no degraded user-facing
messages. -/
theorem search_places_propagates {σ : Type} (createRes getRes : Except PyError σ)
    (hsession : (∃ s, createRes = .ok s) ∨
      ((∃ e₀, createRes = .error e₀) ∧ ∃ s, getRes = .ok s)) :
    (∀ e, search_places createRes getRes (.raises e) = .error e) ∧
      (∀ evs, search_places createRes getRes (.events evs) = .ok (collectFinalText evs)) := by
  rcases hsession with ⟨s, hs⟩ | ⟨⟨e₀, he⟩, s, hs⟩
  · subst hs
    exact ⟨fun e => rfl, fun evs => rfl⟩
  · subst he
    subst hs
    exact ⟨fun e => rfl, fun evs => rfl⟩

theorem search_places_propagates_witness :
    search_places (Except.ok "sess") (Except.ok "sess") (.raises overloadedErr) =
      .error overloadedErr :=
  (search_places_propagates (Except.ok "sess") (Except.ok "sess")
    (Or.inl ⟨"sess", rfl⟩)).1 overloadedErr

lemma boost_core_shape (c p : String) :
    (boost_core c p).status = "success" ∧ (boost_core c p).error_message = none ∧
      ((boost_core c p).boost = 0 ∨ (boost_core c p).boost = 2 ∨ (boost_core c p).boost = 3) := by
  unfold boost_core
  dsimp only
  split
  · exact ⟨rfl, rfl, Or.inr (Or.inr rfl)⟩
  · split
    · exact ⟨rfl, rfl, Or.inr (Or.inl rfl)⟩
    · split
      · exact ⟨rfl, rfl, Or.inr (Or.inl rfl)⟩
      · split
        · exact ⟨rfl, rfl, Or.inr (Or.inl rfl)⟩
        · exact ⟨rfl, rfl, Or.inl rfl⟩

/-- C10: for all inputs, `get_place_category_boost` returns status
"success" with a boost in {0, 2, 3} and never sets the documented error
shape; matching is case-insensitive: inputs equal up to lower-casing give
identical results. -/
theorem get_place_category_boost_safe (c p c' p' : String)
    (hc : pyLower c = pyLower c') (hp : pyLower p = pyLower p') :
    (get_place_category_boost c p).status = "success" ∧
      (get_place_category_boost c p).error_message = none ∧
      ((get_place_category_boost c p).boost = 0 ∨ (get_place_category_boost c p).boost = 2 ∨
        (get_place_category_boost c p).boost = 3) ∧
      get_place_category_boost c p = get_place_category_boost c' p' := by
  obtain ⟨h1, h2, h3⟩ := boost_core_shape (pyLower c) (pyLower p)
  refine ⟨h1, h2, h3, ?_⟩
  unfold get_place_category_boost
  rw [hc, hp]

theorem get_place_category_boost_safe_witness :
    (get_place_category_boost "Cafe" "COFFEE and Art").status = "success" ∧
      (get_place_category_boost "Cafe" "COFFEE and Art").error_message = none ∧
      ((get_place_category_boost "Cafe" "COFFEE and Art").boost = 0 ∨
        (get_place_category_boost "Cafe" "COFFEE and Art").boost = 2 ∨
        (get_place_category_boost "Cafe" "COFFEE and Art").boost = 3) ∧
      get_place_category_boost "Cafe" "COFFEE and Art" =
        get_place_category_boost "cafe" "coffee and art" :=
  get_place_category_boost_safe "Cafe" "COFFEE and Art" "cafe" "coffee and art"
    (by decide) (by decide)
